import Mathlib

/-!
# Verification of the pavement climate-parameter resolution code

Shallow embedding of `src/city.py` and `src/climate.py`.

Modelling conventions:
* Python `float` values are modelled as `ℚ` (the numeric literals of the
  source are exact decimals, so every catalog value and the 1.2 sand factor
  are exact rationals).
* Python exceptions are modelled with `Except PyError`; each Python
  exception class is one constructor of `PyError`.
* The insertion-ordered Python `dict` of `CityTable.__init__` is modelled
  as an association list in the same insertion order.
* Python `str.lower()` is modelled by `pyLower`, the Unicode simple
  lowercase map restricted to the character ranges occurring in this
  program (ASCII and Cyrillic, including the Ukrainian letters
  Є, І, Ї, Ґ); on every string the program can see this agrees with
  Python's `str.lower`.
* `x or y` on an optional float (Python truthiness: `None` and `0.0` are
  falsy) is modelled by `pyOr`.
-/

/-- Python exceptions raised by the embedded code. -/
inductive PyError where
  /-- `KeyError(msg)` raised by `CityTable.get_city`. -/
  | keyError (msg : String) : PyError
  /-- `AttributeError` raised by `None.lower()` when `city=None` is passed
      through `ClimateConfig.__init__` into `get_city`. -/
  | attributeError : PyError
  /-- `ZeroDivisionError` raised by division by zero. -/
  | zeroDivisionError : PyError
deriving DecidableEq

/-- Unicode simple lowercase for one character, restricted to ASCII
`A`–`Z` and the Cyrillic blocks `Ѐ`–`Џ` (U+0400–U+040F), `А`–`Я`
(U+0410–U+042F) and `Ґ` (U+0490); all other characters are fixed.
On these ranges it coincides with Python `str.lower`. -/
def pyLowerChar (c : Char) : Char :=
  if 0x41 ≤ c.toNat ∧ c.toNat ≤ 0x5A then Char.ofNat (c.toNat + 0x20)
  else if 0x410 ≤ c.toNat ∧ c.toNat ≤ 0x42F then Char.ofNat (c.toNat + 0x20)
  else if 0x400 ≤ c.toNat ∧ c.toNat ≤ 0x40F then Char.ofNat (c.toNat + 0x50)
  else if c.toNat = 0x490 then Char.ofNat 0x491
  else c

/-- Model of Python `str.lower()` (see `pyLowerChar`). -/
def pyLower (s : String) : String :=
  String.mk (s.data.map pyLowerChar)

deriving instance DecidableEq for Except

/-- An `Except` value carries a result (Python: the call returned without
raising an exception). -/
def isOkE {ε α : Type} : Except ε α → Bool
  | Except.ok _ => true
  | Except.error _ => false

/-- `City` dataclass of `src/city.py`: name, soil freezing depth
`Z_H_max` (m) and climate index `α0`. -/
structure City where
  name : String
  soil_freezing_depth__Z_H_max : ℚ
  climate_index__a_0 : ℚ
deriving DecidableEq

namespace CityTable

/-- The `_cities` dict built by `CityTable.__init__`, as an association
list in the source's insertion order: the 25 administrative centers with
their normative values from ГБН В.2.3-37641918-559:2019, рис. 7.2. -/
def cities : List (String × City) :=
  [ ("київ",             ⟨"Київ", mkRat 95 100, mkRat 65 100⟩),
    ("харків",           ⟨"Харків", mkRat 100 100, mkRat 95 100⟩),
    ("львів",            ⟨"Львів", mkRat 85 100, mkRat 70 100⟩),
    ("одеса",            ⟨"Одеса", mkRat 65 100, mkRat 70 100⟩),
    ("дніпро",           ⟨"Дніпро", mkRat 85 100, mkRat 85 100⟩),
    ("донецьк",          ⟨"Донецьк", mkRat 90 100, mkRat 90 100⟩),
    ("луцьк",            ⟨"Луцьк", mkRat 80 100, mkRat 60 100⟩),
    ("ужгород",          ⟨"Ужгород", mkRat 65 100, mkRat 55 100⟩),
    ("чернігів",         ⟨"Чернігів", mkRat 110 100, mkRat 90 100⟩),
    ("суми",             ⟨"Суми", mkRat 105 100, mkRat 100 100⟩),
    ("полтава",          ⟨"Полтава", mkRat 95 100, mkRat 90 100⟩),
    ("черкаси",          ⟨"Черкаси", mkRat 90 100, mkRat 80 100⟩),
    ("вінниця",          ⟨"Вінниця", mkRat 85 100, mkRat 50 100⟩),
    ("житомир",          ⟨"Житомир", mkRat 90 100, mkRat 55 100⟩),
    ("хмельницький",     ⟨"Хмельницький", mkRat 85 100, mkRat 50 100⟩),
    ("тернопіль",        ⟨"Тернопіль", mkRat 85 100, mkRat 55 100⟩),
    ("рівне",            ⟨"Рівне", mkRat 85 100, mkRat 60 100⟩),
    ("івано-франківськ", ⟨"Івано-Франківськ", mkRat 90 100, mkRat 70 100⟩),
    ("чернівці",         ⟨"Чернівці", mkRat 75 100, mkRat 60 100⟩),
    ("миколаїв",         ⟨"Миколаїв", mkRat 70 100, mkRat 75 100⟩),
    ("херсон",           ⟨"Херсон", mkRat 70 100, mkRat 70 100⟩),
    ("запоріжжя",        ⟨"Запоріжжя", mkRat 80 100, mkRat 85 100⟩),
    ("кропивницький",    ⟨"Кропивницький", mkRat 85 100, mkRat 85 100⟩),
    ("луганськ",         ⟨"Луганськ", mkRat 100 100, mkRat 95 100⟩),
    ("сімферополь",      ⟨"Сімферополь", mkRat 40 100, mkRat 50 100⟩) ]

/-- `CityTable.get_city`: lower-case the input (no trimming), look it up,
raise `KeyError` with the original input in the message when absent. -/
def get_city (city_name : String) : Except PyError City :=
  let city_key := pyLower city_name
  match cities.find? (fun p => p.1 == city_key) with
  | none =>
      Except.error (PyError.keyError
        ("Місто " ++ city_name ++ " не знайдено в базі даних"))
  | some p => Except.ok p.2

/-- `CityTable.list_cities`: the display names, in insertion order. -/
def list_cities : List String :=
  cities.map (fun p => p.2.name)

end CityTable

/-- `ClimateZone` enum of `src/climate.py`. -/
inductive ClimateZone where
  | ZONE_1 | ZONE_2 | ZONE_3 | ZONE_4
deriving DecidableEq

/-- `TerrainType` enum of `src/climate.py`. -/
inductive TerrainType where
  | TYPE_1 | TYPE_2 | TYPE_3
deriving DecidableEq

/-- Python `x or fallback` where `x : Optional[float]`:
`None` and `0.0` are falsy and select the fallback. -/
def pyOr (x : Option ℚ) (fallback : ℚ) : ℚ :=
  match x with
  | none => fallback
  | some v => if v = 0 then fallback else v

/-- The resolved `ClimateConfig` object: the attributes `__init__`
assigns on `self`. -/
structure ClimateConfig where
  zone : ClimateZone
  terrain_type : TerrainType
  city_data : City
  soil_freezing_depth__Z_H_max : ℚ
  climate_index__a_0 : ℚ
  is_sandy_soil : Bool
deriving DecidableEq

namespace ClimateConfig

/-- `ClimateConfig._get_soil_freezing_depth_by_city`:
the catalog depth, increased by 20% for sandy soils. -/
def _get_soil_freezing_depth_by_city (city : City) (is_sandy_soil : Bool) : ℚ :=
  let base_depth := city.soil_freezing_depth__Z_H_max
  if is_sandy_soil then base_depth * mkRat 12 10 else base_depth

/-- `ClimateConfig._get_climate_index_by_city`: the catalog `α0`. -/
def _get_climate_index_by_city (city : City) : ℚ :=
  city.climate_index__a_0

/-- `ClimateConfig.__init__`. The `isinstance` checks on `zone` and
`terrain_type` always pass in this typed embedding. The source
unconditionally evaluates `self.city_table.get_city(city)`; when
`city is None` this executes `None.lower()` and raises
`AttributeError`. The two `or`-defaults use Python truthiness
(`pyOr`). -/
def init (zone : ClimateZone) (terrain_type : TerrainType)
    (city : Option String := none)
    (soil_freezing_depth__Z_H_max : Option ℚ := none)
    (climate_index__a_0 : Option ℚ := none)
    (is_sandy_soil : Bool := false) : Except PyError ClimateConfig :=
  match (match city with
         | none => Except.error PyError.attributeError
         | some s => CityTable.get_city s) with
  | Except.error e => Except.error e
  | Except.ok city_data =>
    Except.ok
    { zone := zone
      terrain_type := terrain_type
      city_data := city_data
      soil_freezing_depth__Z_H_max :=
        pyOr soil_freezing_depth__Z_H_max
          (_get_soil_freezing_depth_by_city city_data is_sandy_soil)
      climate_index__a_0 :=
        pyOr climate_index__a_0 (_get_climate_index_by_city city_data)
      is_sandy_soil := is_sandy_soil }

/-- `ClimateConfig.calculate_climate_index` (classmethod):
`(Z − Z0)² / (2·T)`; Python raises `ZeroDivisionError` when the
denominator `2 * freezing_duration` is zero. -/
def calculate_climate_index (frost_depth road_thickness freezing_duration : ℚ) :
    Except PyError ℚ :=
  if 2 * freezing_duration = 0 then Except.error PyError.zeroDivisionError
  else Except.ok ((frost_depth - road_thickness) ^ 2 / (2 * freezing_duration))

/-- Value of the `days_map` / `temp_map` dictionaries: an `int` for zones
I–III and the nested `dict` for zone IV. -/
inductive ZoneValue where
  | int (n : Int) : ZoneValue
  | mapping (west south : Int) : ZoneValue
deriving DecidableEq

/-- `ClimateConfig.calculation_days` property: `days_map[self.zone]`. -/
def calculation_days (zone : ClimateZone) : ZoneValue :=
  match zone with
  | ClimateZone.ZONE_1 => ZoneValue.int 145
  | ClimateZone.ZONE_2 => ZoneValue.int 135
  | ClimateZone.ZONE_3 => ZoneValue.int 130
  | ClimateZone.ZONE_4 => ZoneValue.mapping 140 120

/-- `ClimateConfig.design_temperature` property: `temp_map[self.zone]`. -/
def design_temperature (zone : ClimateZone) : ZoneValue :=
  match zone with
  | ClimateZone.ZONE_1 => ZoneValue.int 20
  | ClimateZone.ZONE_2 => ZoneValue.int 25
  | ClimateZone.ZONE_3 => ZoneValue.int 30
  | ClimateZone.ZONE_4 => ZoneValue.mapping 25 35

end ClimateConfig

/-! ## Theorems for the claims -/

/-- Unfolding lemma for `get_city` with the local `city_key` inlined. -/
theorem CityTable.get_city_eq (s : String) :
    CityTable.get_city s =
      match CityTable.cities.find? (fun p => p.1 == pyLower s) with
      | none =>
          Except.error (PyError.keyError
            ("Місто " ++ s ++ " не знайдено в базі даних"))
      | some p => Except.ok p.2 := rfl

/-- C1: the claim says construction with both overrides and no city name
succeeds, consulting the catalog only when a city name is given. The code
instead evaluates `get_city(None)` unconditionally, so `None.lower()`
raises `AttributeError` and construction fails even though both overrides
are present. This theorem evaluates the constructor at that failing
input. -/
theorem C1_overrides_without_city_crash :
    ClimateConfig.init ClimateZone.ZONE_2 TerrainType.TYPE_1 none
      (some (mkRat 95 100)) (some (mkRat 65 100)) false =
    Except.error PyError.attributeError := by
  decide

/-- C2: the claim says `calculation_days`/`design_temperature` return the
documented integers and raise `InvalidArgumentError` for ZONE_4 without a
region. The code has no region parameter at all: for ZONE_4 both
properties return the nested mapping (contradicting their declared `int`
return type) and never raise. This theorem evaluates both properties at
every zone. -/
theorem C2_zone_constants_shape :
    ClimateConfig.calculation_days ClimateZone.ZONE_1 =
      ClimateConfig.ZoneValue.int 145 ∧
    ClimateConfig.calculation_days ClimateZone.ZONE_2 =
      ClimateConfig.ZoneValue.int 135 ∧
    ClimateConfig.calculation_days ClimateZone.ZONE_3 =
      ClimateConfig.ZoneValue.int 130 ∧
    ClimateConfig.calculation_days ClimateZone.ZONE_4 =
      ClimateConfig.ZoneValue.mapping 140 120 ∧
    ClimateConfig.design_temperature ClimateZone.ZONE_1 =
      ClimateConfig.ZoneValue.int 20 ∧
    ClimateConfig.design_temperature ClimateZone.ZONE_2 =
      ClimateConfig.ZoneValue.int 25 ∧
    ClimateConfig.design_temperature ClimateZone.ZONE_3 =
      ClimateConfig.ZoneValue.int 30 ∧
    ClimateConfig.design_temperature ClimateZone.ZONE_4 =
      ClimateConfig.ZoneValue.mapping 25 35 := by
  decide

/-- C8: the catalog holds exactly 25 cities; lookup of "Сімферополь"
yields depth 0.40 and α0 0.50, lookup of "Київ" yields depth 0.95 and
α0 0.65, and resolving "Сімферополь" with `is_sandy_soil = false` yields
exactly those catalog values on the resolved configuration. -/
theorem C8_catalog_constants :
    CityTable.cities.length = 25 ∧
    CityTable.get_city "Сімферополь" =
      Except.ok ⟨"Сімферополь", mkRat 40 100, mkRat 50 100⟩ ∧
    CityTable.get_city "Київ" =
      Except.ok ⟨"Київ", mkRat 95 100, mkRat 65 100⟩ ∧
    ClimateConfig.init ClimateZone.ZONE_3 TerrainType.TYPE_2
        (some "Сімферополь") none none false =
      Except.ok ⟨ClimateZone.ZONE_3, TerrainType.TYPE_2,
        ⟨"Сімферополь", mkRat 40 100, mkRat 50 100⟩,
        mkRat 40 100, mkRat 50 100, false⟩ := by
  decide

/-- C10: every display name produced by `list_cities` looks up
successfully via `get_city`, returning the record whose `name` field is
exactly that display name (each key is the lower-casing of its record's
display name). -/
theorem C10_list_get_round_trip :
    (CityTable.list_cities.all fun n =>
      match CityTable.get_city n with
      | Except.ok c => c.name == n
      | Except.error _ => false) = true := by
  decide

/-- C3: resolving any string that looks up to a catalog record, with no
depth override, yields depth `catalog depth × 1.2` when
`is_sandy_soil = true` and the unmodified catalog depth when
`is_sandy_soil = false`; in both cases α0 is the catalog α0, never
sand-corrected. -/
theorem C3_sand_correction_on_catalog_depth
    (z : ClimateZone) (tt : TerrainType) (s : String) (c : City)
    (h : CityTable.get_city s = Except.ok c) :
    ClimateConfig.init z tt (some s) none none true =
      Except.ok ⟨z, tt, c, c.soil_freezing_depth__Z_H_max * mkRat 12 10,
        c.climate_index__a_0, true⟩ ∧
    ClimateConfig.init z tt (some s) none none false =
      Except.ok ⟨z, tt, c, c.soil_freezing_depth__Z_H_max,
        c.climate_index__a_0, false⟩ := by
  constructor <;>
    simp [ClimateConfig.init, h, pyOr,
      ClimateConfig._get_soil_freezing_depth_by_city,
      ClimateConfig._get_climate_index_by_city]

/-- Witness for C3 at the catalog city "Київ". -/
theorem C3_sand_correction_on_catalog_depth_witness :
    ClimateConfig.init ClimateZone.ZONE_2 TerrainType.TYPE_1 (some "Київ")
        none none true =
      Except.ok ⟨ClimateZone.ZONE_2, TerrainType.TYPE_1,
        ⟨"Київ", mkRat 95 100, mkRat 65 100⟩,
        mkRat 95 100 * mkRat 12 10, mkRat 65 100, true⟩ ∧
    ClimateConfig.init ClimateZone.ZONE_2 TerrainType.TYPE_1 (some "Київ")
        none none false =
      Except.ok ⟨ClimateZone.ZONE_2, TerrainType.TYPE_1,
        ⟨"Київ", mkRat 95 100, mkRat 65 100⟩,
        mkRat 95 100, mkRat 65 100, false⟩ :=
  C3_sand_correction_on_catalog_depth ClimateZone.ZONE_2 TerrainType.TYPE_1
    "Київ" ⟨"Київ", mkRat 95 100, mkRat 65 100⟩ (by decide)

/-- C4 counterexample: the claim includes a `0.0` override, but `0.0` is
falsy for Python `or`, so the override is ignored and the catalog depth
(0.95 for "Київ") is used instead of the requested 0. -/
theorem C4_counterexample_zero_override_ignored :
    ClimateConfig.init ClimateZone.ZONE_2 TerrainType.TYPE_1 (some "Київ")
        (some 0) none false =
      Except.ok ⟨ClimateZone.ZONE_2, TerrainType.TYPE_1,
        ⟨"Київ", mkRat 95 100, mkRat 65 100⟩,
        mkRat 95 100, mkRat 65 100, false⟩ ∧
    ¬ (mkRat 95 100 = (0 : ℚ)) := by
  decide

/-- C4 (amended): for every construction that succeeds with a non-zero
(`truthy`) depth override, the resolved depth equals the override
exactly, whatever the sand flag, the city and the catalog say. -/
theorem C4_nonzero_override_precedence
    (z : ClimateZone) (tt : TerrainType) (city : Option String)
    (v : ℚ) (idx : Option ℚ) (sandy : Bool) (cfg : ClimateConfig)
    (hv : v ≠ 0)
    (h : ClimateConfig.init z tt city (some v) idx sandy = Except.ok cfg) :
    cfg.soil_freezing_depth__Z_H_max = v := by
  unfold ClimateConfig.init at h
  cases city with
  | none => simp at h
  | some s =>
      dsimp only at h
      cases hgc : CityTable.get_city s with
      | error e => rw [hgc] at h; simp at h
      | ok c =>
          rw [hgc] at h
          injection h with h'
          subst h'
          simp [pyOr, hv]

/-- Witness for C4 (amended) at override 1.5 on city "Київ" with the
sand flag set. -/
theorem C4_nonzero_override_precedence_witness :
    ¬ ((mkRat 3 2) = (0 : ℚ)) ∧
    (⟨ClimateZone.ZONE_2, TerrainType.TYPE_1,
      ⟨"Київ", mkRat 95 100, mkRat 65 100⟩,
      mkRat 3 2, mkRat 65 100, true⟩ :
        ClimateConfig).soil_freezing_depth__Z_H_max = mkRat 3 2 :=
  ⟨by decide,
   C4_nonzero_override_precedence ClimateZone.ZONE_2 TerrainType.TYPE_1
     (some "Київ") (mkRat 3 2) none true
     ⟨ClimateZone.ZONE_2, TerrainType.TYPE_1,
      ⟨"Київ", mkRat 95 100, mkRat 65 100⟩,
      mkRat 3 2, mkRat 65 100, true⟩ (by decide) (by decide)⟩

/-- C5 counterexample: the claim says every `freezing_duration ≤ 0`
fails; the code only fails on division by zero, so a negative duration
(here −1) returns a value without raising. -/
theorem C5_counterexample_negative_duration_returns :
    (-1 : ℚ) ≤ 0 ∧
    isOkE (ClimateConfig.calculate_climate_index 1 0 (-1)) = true := by
  refine ⟨by norm_num, ?_⟩
  unfold ClimateConfig.calculate_climate_index
  rw [if_neg (by norm_num)]
  rfl

/-- C5 (amended): `calculate_climate_index` raises `ZeroDivisionError`
exactly when the duration is zero (the only case with a zero
denominator), and for every non-zero duration — positive or negative —
returns `(Z − Z0)² / (2·T)` without raising. -/
theorem C5_fails_exactly_at_zero_duration
    (frost_depth road_thickness freezing_duration : ℚ) :
    ClimateConfig.calculate_climate_index frost_depth road_thickness
        freezing_duration =
      if freezing_duration = 0 then Except.error PyError.zeroDivisionError
      else Except.ok ((frost_depth - road_thickness) ^ 2 /
        (2 * freezing_duration)) := by
  unfold ClimateConfig.calculate_climate_index
  by_cases h : freezing_duration = 0
  · simp [h]
  · rw [if_neg (by simpa using h), if_neg h]

/-- C6 counterexample: the claim says whitespace variants of a catalog
name return the same record, but `get_city` only lower-cases (it never
trims), so `" Київ "` is not found even though `"Київ"` is. -/
theorem C6_counterexample_whitespace_not_trimmed :
    CityTable.get_city "Київ" =
      Except.ok ⟨"Київ", mkRat 95 100, mkRat 65 100⟩ ∧
    CityTable.get_city " Київ " =
      Except.error
        (PyError.keyError "Місто  Київ  не знайдено в базі даних") := by
  decide

/-- C6 (amended): lookup is case-insensitive — any two inputs with the
same lower-casing resolve identically — so every variant of a catalog
name differing only in letter case returns the same record; whitespace
is not normalized. -/
theorem C6_case_variants_same_record (s₁ s₂ : String) (c : City)
    (hl : pyLower s₁ = pyLower s₂)
    (h : CityTable.get_city s₁ = Except.ok c) :
    CityTable.get_city s₂ = Except.ok c := by
  rw [CityTable.get_city_eq] at h
  rw [CityTable.get_city_eq, ← hl]
  cases hf : CityTable.cities.find? (fun p => p.1 == pyLower s₁) with
  | none => rw [hf] at h; simp at h
  | some p => rw [hf] at h; exact h

/-- Witness for C6 (amended): the all-caps variant of "Київ" resolves to
the same record as the canonical spelling. -/
theorem C6_case_variants_same_record_witness :
    pyLower "Київ" = pyLower "КИЇВ" ∧
    CityTable.get_city "КИЇВ" =
      Except.ok ⟨"Київ", mkRat 95 100, mkRat 65 100⟩ :=
  ⟨by decide,
   C6_case_variants_same_record "Київ" "КИЇВ"
     ⟨"Київ", mkRat 95 100, mkRat 65 100⟩ (by decide) (by decide)⟩

/-- C7: any input whose lower-cased form has no catalog entry fails with
the `KeyError`, whose message contains the original, non-normalized
input. -/
theorem C7_unknown_city_error_message (s : String)
    (h : CityTable.cities.find? (fun p => p.1 == pyLower s) = none) :
    ∃ pre post, CityTable.get_city s =
      Except.error (PyError.keyError (pre ++ s ++ post)) := by
  refine ⟨"Місто ", " не знайдено в базі даних", ?_⟩
  rw [CityTable.get_city_eq, h]

/-- Witness for C7 at the unknown city "Атлантида". -/
theorem C7_unknown_city_error_message_witness :
    ∃ pre post, CityTable.get_city "Атлантида" =
      Except.error (PyError.keyError (pre ++ "Атлантида" ++ post)) :=
  C7_unknown_city_error_message "Атлантида" (by decide)

/-- C9: for every positive duration, `calculate_climate_index` returns
exactly `(Z − Z0)² / (2·T)`, and the result is invariant under swapping
the frost depth `Z` with the pavement thickness `Z0`. -/
theorem C9_formula_and_symmetry (z z0 t : ℚ) (ht : 0 < t) :
    ClimateConfig.calculate_climate_index z z0 t =
      Except.ok ((z - z0) ^ 2 / (2 * t)) ∧
    ClimateConfig.calculate_climate_index z z0 t =
      ClimateConfig.calculate_climate_index z0 z t := by
  have h2 : ¬ (2 * t = 0) := by
    simpa using ht.ne'
  unfold ClimateConfig.calculate_climate_index
  rw [if_neg h2, if_neg h2]
  exact ⟨rfl, by rw [Except.ok.injEq]; ring⟩

/-- Witness for C9 at `Z = 2`, `Z0 = 1`, `T = 5`. -/
theorem C9_formula_and_symmetry_witness :
    (0 : ℚ) < 5 ∧
    (ClimateConfig.calculate_climate_index 2 1 5 =
      Except.ok (((2 : ℚ) - 1) ^ 2 / (2 * 5)) ∧
    ClimateConfig.calculate_climate_index 2 1 5 =
      ClimateConfig.calculate_climate_index 1 2 5) :=
  ⟨by decide, C9_formula_and_symmetry 2 1 5 (by decide)⟩
